import Mathlib

/-!
Verification of the BRAT fuzzy-inference sensitivity-analysis scripts
(`combined_fis_custom.py`, `vegetation_fis_custom.py`, `brat_montecarlo.py`).

The embedding works over exact rationals.  Python `round(x, k)` (banker
rounding, half to even) is modelled by `roundTo`, one-argument `round` by
`roundHalfEven`.  Fractional constants are written with `mkRat` so that every
definition evaluates by kernel reduction.  The skfuzzy inference engine is an
external library; the defuzzified rule-table output is therefore an explicit
oracle parameter wherever a claim quantifies over it, while the parts of
skfuzzy whose exact values the scripts bake into constants (the centroid
defuzzifier on a sampled piecewise-linear membership function, and the arity
assertions of `trapmf` / `trimf` / `pimf`) are modelled exactly below.
-/

attribute [local semireducible] Rat.add Rat.sub Rat.mul

/-- Python `round` with a single argument: round half to even, returning an
integer.  Works on the exact rational value. -/
def roundHalfEven (q : ℚ) : ℤ :=
  if q - Rat.floor q < mkRat 1 2 then Rat.floor q
  else if mkRat 1 2 < q - Rat.floor q then Rat.floor q + 1
  else if Rat.floor q % 2 = 0 then Rat.floor q else Rat.floor q + 1

/-- Python `round(q, k)`: round half to even at `k` decimal places. -/
def roundTo (k : ℕ) (q : ℚ) : ℚ :=
  mkRat (roundHalfEven (q * 10 ^ k)) (10 ^ k)

theorem ratFloor_eq (q : ℚ) : (Rat.floor q : ℤ) = ⌊q⌋ :=
  (Rat.floor_def' q).trans Rat.floor_def.symm

theorem roundHalfEven_le_of_le_int (q : ℚ) (k : ℤ) (h : q ≤ (k : ℚ)) :
    roundHalfEven q ≤ k := by
  unfold roundHalfEven
  rw [ratFloor_eq]
  have hf : ⌊q⌋ ≤ k := by
    have := Int.floor_le_floor h
    rwa [Int.floor_intCast] at this
  rcases eq_or_lt_of_le hf with heq | hlt
  · have h1 : (⌊q⌋ : ℚ) ≤ q := Int.floor_le q
    have h2 : q - (⌊q⌋ : ℚ) = 0 := by
      have h3 : q ≤ (⌊q⌋ : ℚ) := by rw [heq]; exact h
      linarith
    rw [h2, if_pos (by decide : (0 : ℚ) < mkRat 1 2)]
    exact heq.le
  · split_ifs <;> omega

theorem mkRat_le_mkRat_right {a b : ℤ} {d : ℕ} (h : a ≤ b) :
    mkRat a d ≤ mkRat b d := by
  rcases Nat.eq_zero_or_pos d with hd | hd
  · subst hd; simp [Rat.mkRat_eq_divInt]
  · rw [Rat.mkRat_eq_divInt, Rat.mkRat_eq_divInt, Rat.divInt_eq_div, Rat.divInt_eq_div]
    have hdq : (0 : ℚ) < ((d : ℤ) : ℚ) := by exact_mod_cast hd
    exact (div_le_div_iff_of_pos_right hdq).mpr (by exact_mod_cast h)

theorem roundTo_fix_eq (k : ℕ) (v : ℚ) (hfix : roundTo k v = v) :
    v * 10 ^ k = ((roundHalfEven (v * 10 ^ k) : ℤ) : ℚ) := by
  conv_lhs => rw [← hfix]
  rw [roundTo, Rat.mkRat_eq_divInt, Rat.divInt_eq_div]
  have h10 : ((10 : ℚ) ^ k) ≠ 0 := by positivity
  field_simp

theorem roundTo_le_of_le_fix (k : ℕ) (x v : ℚ) (hfix : roundTo k v = v) (h : x ≤ v) :
    roundTo k x ≤ v := by
  have h10 : (0 : ℚ) < (10 : ℚ) ^ k := by positivity
  have hx : x * 10 ^ k ≤ ((roundHalfEven (v * 10 ^ k) : ℤ) : ℚ) := by
    rw [← roundTo_fix_eq k v hfix]
    exact mul_le_mul_of_nonneg_right h h10.le
  have hle : roundHalfEven (x * 10 ^ k) ≤ roundHalfEven (v * 10 ^ k) :=
    roundHalfEven_le_of_le_int _ _ hx
  calc roundTo k x = mkRat (roundHalfEven (x * 10 ^ k)) (10 ^ k) := rfl
    _ ≤ mkRat (roundHalfEven (v * 10 ^ k)) (10 ^ k) := mkRat_le_mkRat_right hle
    _ = roundTo k v := rfl
    _ = v := hfix

/-! ## Input clamping

`calculate_combined_fis_custom` lines 158-167 and `calculate_vegetation_fis_custom`
lines 117-121 adjust the input arrays before evaluation. -/

/-- Vegetation-suitability clamp of the vegetation stage (lines 118-121 of
`vegetation_fis_custom.py`): values below 0 become 0, values above 4 become 4. -/
def clampSuit (v : ℚ) : ℚ :=
  if v < 0 then 0 else if v > 4 then 4 else v

/-- Clamp of the `oVC` input of the combined stage (lines 159-160 of
`combined_fis_custom.py`): below 0 becomes 0, above 45 becomes 45. -/
def clampVeg (v : ℚ) : ℚ :=
  if v < 0 then 0 else if v > 45 then 45 else v

/-- Clamp of the two stream-power inputs (lines 162-166): negative values become
0.0001 and values above 10000 become 10000. -/
def clampHyd (v : ℚ) : ℚ :=
  if v < 0 then mkRat 1 10000 else if v > 10000 then 10000 else v

/-- Clamp of the slope input (line 167): only values above 1 are clamped, to 1.
Negative slopes pass through unchanged. -/
def clampSlope (v : ℚ) : ℚ :=
  if v > 1 then 1 else v

/-- Clamp prescribed by the spec for a `[lo, hi]` domain: replace an
out-of-domain value by the domain minimum or maximum.  Used only to compare the
code clamps against the specification wording. -/
def specClamp (lo hi v : ℚ) : ℚ :=
  max lo (min hi v)

/-! ## Centroid defuzzification constants

Both scripts precompute `round(fuzz.defuzz(x_vals, mfx, centroid), ...)` for
the output categories `none` (triangle `[0, 0, 0.1]`) and, in the vegetation
stage, `pervasive` (trapezoid `[12, 25, 45, 45]`) over `x_vals =
np.arange(0, 45, 0.01)`.  The skfuzzy centroid routine integrates the
piecewise-linear interpolation of the sampled membership values exactly
(each sample interval contributes its exact trapezoid area and first moment).
Because every vertex of the two membership functions that lies inside the
sampled range is itself a sample point, the interpolated curve of `none` is the
two-segment polyline through (0,1), (0.1,0) and that of `pervasive` the
polyline through (12,0), (25,1), (44.99,1), the last sample of the universe.
We therefore compute the centroid from those vertex lists; the value is
identical to the full 4500-point sum. -/

/-- Exact area under the linear segment from `(x1, y1)` to `(x2, y2)`. -/
def segArea (x1 y1 x2 y2 : ℚ) : ℚ :=
  (x2 - x1) * (y1 + y2) * mkRat 1 2

/-- Exact first moment (integral of `x * mf x`) of the linear segment from
`(x1, y1)` to `(x2, y2)`.  This closed form agrees with each of the
rectangle/triangle/trapezoid branches of the skfuzzy centroid routine. -/
def segMomentArea (x1 y1 x2 y2 : ℚ) : ℚ :=
  (x2 - x1) * (x1 * (y1 + y2) * mkRat 1 2 + (x2 - x1) * (y1 + 2 * y2) * mkRat 1 6)

/-- Total area of a piecewise-linear membership curve given by its vertices. -/
def plArea : List (ℚ × ℚ) → ℚ
  | (x1, y1) :: (x2, y2) :: rest => segArea x1 y1 x2 y2 + plArea ((x2, y2) :: rest)
  | _ => 0

/-- Total first moment of a piecewise-linear membership curve. -/
def plMomentArea : List (ℚ × ℚ) → ℚ
  | (x1, y1) :: (x2, y2) :: rest => segMomentArea x1 y1 x2 y2 + plMomentArea ((x2, y2) :: rest)
  | _ => 0

/-- Executable rational division (`Rat.div_def'` shows it agrees with `/`). -/
def qdiv (q r : ℚ) : ℚ :=
  Rat.divInt (q.num * r.den) (q.den * r.num)

theorem qdiv_eq_div (q r : ℚ) : qdiv q r = q / r :=
  (Rat.div_def' q r).symm

/-- Centroid (center of gravity) of a piecewise-linear membership curve. -/
def plCentroid (pts : List (ℚ × ℚ)) : ℚ :=
  qdiv (plMomentArea pts) (plArea pts)

/-- Vertices of the `none` output membership function `trimf [0, 0, 0.1]` as
interpolated over `np.arange(0, 45, 0.01)`. -/
def nonePts : List (ℚ × ℚ) :=
  [(0, 1), (mkRat 1 10, 0)]

/-- Vertices of the `pervasive` output membership function
`trapmf [12, 25, 45, 45]` as interpolated over `np.arange(0, 45, 0.01)`,
whose last sample point is 44.99. -/
def pervasivePts : List (ℚ × ℚ) :=
  [(12, 0), (25, 1), (mkRat 4499 100, 1)]

/-- Reclassification constant `defuzz_centroid = round(..., 6)` computed by both
scripts for the `none` output category in isolation. -/
def defuzz_centroid : ℚ :=
  roundTo 6 (plCentroid nonePts)

/-- Reclassification constant `defuzz_pervasive = round(...)` computed by the
vegetation script for the `pervasive` output category in isolation. -/
def defuzz_pervasive : ℤ :=
  roundHalfEven (plCentroid pervasivePts)

theorem defuzz_centroid_value : defuzz_centroid = mkRat 33333 1000000 := by decide

theorem defuzz_pervasive_value : defuzz_pervasive = 31 := by decide

/-! ## Membership-function scale adjustment -/

/-- Helper `calculate_trap_scale` (combined_fis_custom.py lines 535-547): keep
the flat top `(b, c)` of a trapezoid `[a, b, c, d]` fixed and scale the left
and right slope points by their distance from the top. -/
def calculate_trap_scale (abcd : List ℚ) (scale_factor : ℚ) : List ℚ :=
  let b := abcd.getD 1 0
  let c := abcd.getD 2 0
  let a := b - (b - abcd.getD 0 0) * scale_factor
  let d := c + (abcd.getD 3 0 - c) * scale_factor
  [a, b, c, d]

/-- Triangle scaling inlined at combined_fis_custom.py lines 248-252 and
vegetation_fis_custom.py lines 161-165 (identical formula in both): the apex
`b` is fixed and both legs scale by their distance from it. -/
def calculate_tri_scale (abc : List ℚ) (scale_factor : ℚ) : List ℚ :=
  let b := abc.getD 1 0
  let a := b - (b - abc.getD 0 0) * scale_factor
  let c := b + (abc.getD 2 0 - b) * scale_factor
  [a, b, c]

/-! ## Vegetation stage -/

/-- Standard vegetation-stage membership breakpoints
(`calculate_vegegtation_fis` lines 345-349; the riparian and streamside tables
are identical). -/
def veg_standard_mfs : List (String × List ℚ) :=
  [("unsuitable", [0, 0, mkRat 1 10, 1]),
   ("barely", [mkRat 1 10, 1, 2]),
   ("moderately", [1, 2, 3]),
   ("suitable", [2, 3, 4]),
   ("preferred", [3, 4, 4])]

/-- Breakpoints produced by the scale path of
`calculate_vegetation_fis_custom` (lines 147-166): the trapezoid
`[0, 0, 0.1, 1]` is scaled with the inline trapezoid equations, the four
triangles with the inline triangle equations. -/
def veg_scale_mfs (adj_val : ℚ) : List (String × List ℚ) :=
  let a1 := 0 - (0 - 0) * adj_val
  let d1 := mkRat 1 10 + (1 - mkRat 1 10) * adj_val
  [("unsuitable", [a1, 0, mkRat 1 10, d1]),
   ("barely", calculate_tri_scale [mkRat 1 10, 1, 2] adj_val),
   ("moderately", calculate_tri_scale [1, 2, 3] adj_val),
   ("suitable", calculate_tri_scale [2, 3, 4] adj_val),
   ("preferred", calculate_tri_scale [3, 4, 4] adj_val)]

/-- Per-reach post-processing of the vegetation stage (lines 249-256): a
defuzzified output whose 6-decimal rounding equals the precomputed `none`
centroid is reset to 0; afterwards an output whose integer rounding is at
least the precomputed `pervasive` centroid is set to 40. -/
def vegResult (fisOut : ℚ) : ℚ :=
  let result := if roundTo 6 fisOut = defuzz_centroid then 0 else fisOut
  if defuzz_pervasive ≤ roundHalfEven result then 40 else result

/-- Stored `oVC` field value (line 258): the post-processed output rounded to
2 decimal places. -/
def vegStored (fisOut : ℚ) : ℚ :=
  roundTo 2 (vegResult fisOut)

/-- Configuration validation of `vegetation_fis_custom` (lines 53-60): the
adjustment type must be `scale` or `shape`; a scale value must be positive; a
shape value must be 1.0 (best fit) or 2.0 (loose fit). -/
def veg_validate (adjustment_type : Option String) (adjustment_value : ℚ) :
    Except String Unit :=
  match adjustment_type with
  | none => Except.ok ()
  | some t =>
      if ¬ (t = "scale" ∨ t = "shape") then
        Except.error "Invalid adjustment type"
      else if t = "scale" ∧ adjustment_value ≤ 0 then
        Except.error "Invalid adjustment value scale factor"
      else if t = "shape" ∧ ¬ (adjustment_value = 1 ∨ adjustment_value = 2) then
        Except.error "Invalid adjustment value"
      else Except.ok ()

/-- The vegetation wrapper at the level the claims need: validate the
adjustment configuration eagerly (before any reach is touched), then evaluate
every reach and return the list of stored `oVC` values.  The defuzzified
rule-table output for a pair of clamped `(riparian, streamside)` inputs is the
oracle `fis`; an error value means the run aborted with no output written. -/
def vegetation_fis_custom_run (adjustment_type : Option String)
    (adjustment_value : ℚ) (reaches : List (ℚ × ℚ)) (fis : ℚ → ℚ → ℚ) :
    Except String (List ℚ) :=
  match veg_validate adjustment_type adjustment_value with
  | Except.error e => Except.error e
  | Except.ok _ =>
      Except.ok (reaches.map fun r => vegStored (fis (clampSuit r.1) (clampSuit r.2)))

/-! ## Combined stage: per-reach post-processing -/

/-- Reach record consumed by the combined stage: the vegetation FIS output
`oVC`, the two stream powers, slope, drainage area, reach code and length. -/
structure CombReach where
  veg : ℚ
  sp2 : ℚ
  splow : ℚ
  slope : ℚ
  drain : ℚ
  reachCode : ℤ
  len : ℚ

/-- Input clamping of the combined stage applied to a whole record
(lines 158-167).  Drainage area, reach code and length are not clamped. -/
def clampReach (r : CombReach) : CombReach :=
  { r with
    veg := clampVeg r.veg
    sp2 := clampHyd r.sp2
    splow := clampHyd r.splow
    slope := clampSlope r.slope }

/-- Capacity produced from a defuzzified FIS value and the (already clamped)
vegetation capacity (lines 413-425 and 429-441, identical in both branches):
the result is capped at the vegetation capacity, and a result that rounds to
the precomputed `none` centroid is reset to 0. -/
def fisCapacity (veg fisOut : ℚ) : ℚ :=
  let capacity := if fisOut > veg then veg else fisOut
  if roundTo 6 capacity = defuzz_centroid then 0 else capacity

/-- Per-reach capacity of `calculate_combined_fis_custom` (lines 406-441):
`capacity = 0.0` unless either no truthy maximum drainage area is configured,
or the drainage area is below it, or the reach code is 33600 — in those cases
the FIS result (post-processed by `fisCapacity`) is used.  `veg` is the
clamped `oVC` input and `fisOut` the defuzzified rule-table output. -/
def reachCapacity (maxDA : Option ℚ) (drain veg : ℚ) (rc : ℤ) (fisOut : ℚ) : ℚ :=
  match maxDA with
  | none => fisCapacity veg fisOut
  | some m =>
      if m = 0 then fisCapacity veg fisOut
      else if drain < m then fisCapacity veg fisOut
      else if rc = 33600 then fisCapacity veg fisOut
      else 0

/-- Dam count stored for a reach (lines 443-447): `capacity * len / 1000`,
forced to 1.0 when strictly between 0 and 1, then rounded to 2 decimals. -/
def damCount (capacity len : ℚ) : ℚ :=
  let count := capacity * mkRat len.num (1000 * len.den)
  let count := if 0 < count ∧ count < 1 then 1 else count
  roundTo 2 count

theorem damCount_raw_eq (capacity len : ℚ) :
    capacity * mkRat len.num (1000 * len.den) = capacity * len * mkRat 1 1000 := by
  have hd : ((len.den : ℚ)) ≠ 0 := Nat.cast_ne_zero.mpr len.den_nz
  have hnum : (len.num : ℚ) = len * len.den := (div_eq_iff hd).mp (Rat.num_div_den len)
  have h1 : mkRat len.num (1000 * len.den) = len * mkRat 1 1000 := by
    rw [Rat.mkRat_eq_divInt, Rat.divInt_eq_div, Rat.mkRat_eq_divInt, Rat.divInt_eq_div, hnum]
    push_cast
    field_simp
    rw [hnum]
    ring
  rw [h1]; ring

/-- Full per-reach output of the combined stage: the stored capacity field
(line 446) and the stored dam-count field (line 447). -/
def processReach (maxDA : Option ℚ) (fis : CombReach → ℚ) (r : CombReach) : ℚ × ℚ :=
  let rc := clampReach r
  let capacity := reachCapacity maxDA r.drain rc.veg r.reachCode (fis rc)
  (roundTo 2 capacity, damCount capacity r.len)

/-! ## Combined stage: membership-function construction

skfuzzy `trapmf` and `trimf` assert that their breakpoint argument has exactly
four (resp. three) elements; `pimf` takes exactly four scalar arguments after
the universe.  The checks below model those arity requirements; they are
polymorphic in the element type because the scripts sometimes pass a list
where a scalar is expected. -/

/-- Arity assertion of skfuzzy `trapmf`. -/
def trapmf_check {α : Type} (abcd : List α) : Except String (List α) :=
  if abcd.length = 4 then Except.ok abcd
  else Except.error "abcd parameter must have exactly four elements."

/-- Arity assertion of skfuzzy `trimf`. -/
def trimf_check {α : Type} (abc : List α) : Except String (List α) :=
  if abc.length = 3 then Except.ok abc
  else Except.error "abc parameter must have exactly three elements."

/-- Positional-argument check of skfuzzy `pimf`, which requires exactly four
scalars after the universe.  Star-unpacking a singleton list supplies only
one. -/
def pimf_check {α : Type} (args : List α) : Except String Unit :=
  if args.length = 4 then Except.ok ()
  else Except.error "pimf missing required positional arguments"

/-- SPLow `can` breakpoints after shift (line 197) and scale (line 205). -/
def splow_can_pts (sh sc : ℚ) : List ℚ :=
  calculate_trap_scale [0, 0, 150 + sh, 175 + sh] sc

/-- SPLow `probably` breakpoints after shift and scale (lines 198, 205). -/
def splow_probably_pts (sh sc : ℚ) : List ℚ :=
  calculate_trap_scale [150 + sh, 175 + sh, 180 + sh, 190 + sh] sc

/-- SPLow `cannot` breakpoints after shift and scale (lines 199, 205). -/
def splow_cannot_pts (sh sc : ℚ) : List ℚ :=
  calculate_trap_scale [180 + sh, 190 + sh, 10000, 10000] sc

/-- SP2 `persists` breakpoints after shift and scale (lines 235, 246). -/
def sp2_persists_pts (sh sc : ℚ) : List ℚ :=
  calculate_trap_scale [0, 0, 1000 + sh, 1200 + sh] sc

/-- SP2 `breach` breakpoints after shift and scale (lines 239, 248-252). -/
def sp2_breach_pts (sh sc : ℚ) : List ℚ :=
  calculate_tri_scale [1000 + sh, 1200 + sh, 1600 + sh] sc

/-- SP2 `oblowout` breakpoints after shift and scale (lines 240, 248-252). -/
def sp2_oblowout_pts (sh sc : ℚ) : List ℚ :=
  calculate_tri_scale [1200 + sh, 1600 + sh, 2400 + sh] sc

/-- SP2 `blowout` breakpoints after shift and scale (lines 236, 246). -/
def sp2_blowout_pts (sh sc : ℚ) : List ℚ :=
  calculate_trap_scale [1600 + sh, 2400 + sh, 10000, 10000] sc

/-- Slope `flat` breakpoints (line 284; the shift is not applied to `flat`). -/
def slope_flat_pts (_sh sc : ℚ) : List ℚ :=
  calculate_trap_scale [0, 0, mkRat 2 10000, mkRat 5 1000] sc

/-- Slope `can` breakpoints after shift and scale (lines 285, 293). -/
def slope_can_pts (sh sc : ℚ) : List ℚ :=
  calculate_trap_scale [mkRat 2 10000, mkRat 5 1000, mkRat 12 100 + sh, mkRat 15 100 + sh] sc

/-- Slope `probably` breakpoints after shift and scale (lines 286, 293). -/
def slope_probably_pts (sh sc : ℚ) : List ℚ :=
  calculate_trap_scale [mkRat 12 100 + sh, mkRat 15 100 + sh, mkRat 17 100 + sh, mkRat 23 100 + sh] sc

/-- Slope `cannot` breakpoints after shift and scale (lines 287, 293). -/
def slope_cannot_pts (sh sc : ℚ) : List ℚ :=
  calculate_trap_scale [mkRat 17 100 + sh, mkRat 23 100 + sh, 1, 1] sc

/-- SPLow membership-function construction (lines 210-227).  The best-fit
branch star-unpacks `[pts]` into `pimf` for `probably` (one argument where
four are required); the default branch wraps every breakpoint list in a
singleton list before passing it to `trapmf`. -/
def build_splow (sh sc shape : ℚ) : Except String Unit :=
  if shape = 1 then
    match pimf_check [mkRat (-1) 100, 0, (splow_can_pts sh sc).getD 2 0, (splow_can_pts sh sc).getD 3 0] with
    | Except.error e => Except.error e
    | Except.ok _ =>
    match pimf_check [splow_probably_pts sh sc] with
    | Except.error e => Except.error e
    | Except.ok _ =>
    match pimf_check [(splow_cannot_pts sh sc).getD 0 0, (splow_cannot_pts sh sc).getD 1 0, 10000, mkRat 100001 10] with
    | Except.error e => Except.error e
    | Except.ok _ => Except.ok ()
  else if shape = 2 then
    Except.ok ()
  else
    match trapmf_check [splow_can_pts sh sc] with
    | Except.error e => Except.error e
    | Except.ok _ =>
    match trapmf_check [splow_probably_pts sh sc] with
    | Except.error e => Except.error e
    | Except.ok _ =>
    match trapmf_check [splow_cannot_pts sh sc] with
    | Except.error e => Except.error e
    | Except.ok _ => Except.ok ()

/-- SP2 membership-function construction (lines 256-276), with the same
argument shapes as the source: the best-fit branch star-unpacks singleton
lists for `breach` and `oblowout`; the default branch wraps every breakpoint
list in a singleton list. -/
def build_sp2 (sh sc shape : ℚ) : Except String Unit :=
  if shape = 1 then
    match pimf_check [mkRat (-1) 100, 0, (sp2_persists_pts sh sc).getD 2 0, (sp2_persists_pts sh sc).getD 3 0] with
    | Except.error e => Except.error e
    | Except.ok _ =>
    match pimf_check [sp2_breach_pts sh sc] with
    | Except.error e => Except.error e
    | Except.ok _ =>
    match pimf_check [sp2_oblowout_pts sh sc] with
    | Except.error e => Except.error e
    | Except.ok _ =>
    match pimf_check [(sp2_blowout_pts sh sc).getD 0 0, (sp2_blowout_pts sh sc).getD 1 0, 10000, mkRat 100001 10] with
    | Except.error e => Except.error e
    | Except.ok _ => Except.ok ()
  else if shape = 2 then
    Except.ok ()
  else
    match trapmf_check [sp2_persists_pts sh sc] with
    | Except.error e => Except.error e
    | Except.ok _ =>
    match trimf_check [sp2_breach_pts sh sc] with
    | Except.error e => Except.error e
    | Except.ok _ =>
    match trimf_check [sp2_oblowout_pts sh sc] with
    | Except.error e => Except.error e
    | Except.ok _ =>
    match trapmf_check [sp2_blowout_pts sh sc] with
    | Except.error e => Except.error e
    | Except.ok _ => Except.ok ()

/-- Slope membership-function construction (lines 298-318).  In the best-fit
branch `probably` is star-unpacked from the bare list (line 303), which
supplies the four scalars correctly; the default branch wraps every breakpoint
list in a singleton list. -/
def build_slope (sh sc shape : ℚ) : Except String Unit :=
  if shape = 1 then
    match pimf_check [mkRat (-1) 100, 0, mkRat 2 10000, mkRat 5 1000] with
    | Except.error e => Except.error e
    | Except.ok _ =>
    match pimf_check [mkRat 2 10000, mkRat 5 1000, (slope_can_pts sh sc).getD 2 0, (slope_can_pts sh sc).getD 3 0] with
    | Except.error e => Except.error e
    | Except.ok _ =>
    match pimf_check (slope_probably_pts sh sc) with
    | Except.error e => Except.error e
    | Except.ok _ =>
    match pimf_check [(slope_cannot_pts sh sc).getD 0 0, (slope_cannot_pts sh sc).getD 1 0, 1, mkRat 101 100] with
    | Except.error e => Except.error e
    | Except.ok _ => Except.ok ()
  else if shape = 2 then
    Except.ok ()
  else
    match trapmf_check [slope_flat_pts sh sc] with
    | Except.error e => Except.error e
    | Except.ok _ =>
    match trapmf_check [slope_can_pts sh sc] with
    | Except.error e => Except.error e
    | Except.ok _ =>
    match trapmf_check [slope_probably_pts sh sc] with
    | Except.error e => Except.error e
    | Except.ok _ =>
    match trapmf_check [slope_cannot_pts sh sc] with
    | Except.error e => Except.error e
    | Except.ok _ => Except.ok ()

/-- Full membership-function construction of `calculate_combined_fis_custom`
(lines 176-318): the `ovc` and `density` functions (well-formed breakpoint
lists, lines 179-189) followed by the three adjustable variables. -/
def build_combined_mfs (spl_sh spl_sc spl_shape sp2_sh sp2_sc sp2_shape slo_sh slo_sc slo_shape : ℚ) :
    Except String Unit :=
  match trimf_check [(0 : ℚ), 0, mkRat 1 10] with
  | Except.error e => Except.error e
  | Except.ok _ =>
  match trapmf_check [(12 : ℚ), 25, 45, 45] with
  | Except.error e => Except.error e
  | Except.ok _ =>
  match build_splow spl_sh spl_sc spl_shape with
  | Except.error e => Except.error e
  | Except.ok _ =>
  match build_sp2 sp2_sh sp2_sc sp2_shape with
  | Except.error e => Except.error e
  | Except.ok _ => build_slope slo_sh slo_sc slo_shape

/-- `calculate_combined_fis_custom` at the level the claims need: the
membership functions are constructed first (aborting the whole call on a
failed skfuzzy assertion, before any reach is evaluated), then every reach is
processed.  The defuzzified rule-table output for a clamped record is the
oracle `fis`. -/
def calculate_combined_fis_custom_run
    (spl_sh spl_sc spl_shape sp2_sh sp2_sc sp2_shape slo_sh slo_sc slo_shape : ℚ)
    (maxDA : Option ℚ) (reaches : List CombReach) (fis : CombReach → ℚ) :
    Except String (List (ℚ × ℚ)) :=
  match build_combined_mfs spl_sh spl_sc spl_shape sp2_sh sp2_sc sp2_shape slo_sh slo_sc slo_shape with
  | Except.error e => Except.error e
  | Except.ok _ => Except.ok (reaches.map (processReach maxDA fis))

/-! ## Combined stage: configuration validation and wrapper -/

/-- Per-value validation loop of `combined_fis_custom` (lines 76-80): on the
shape path a value other than 1.0, 2.0 or -1.0 (including an unprovided one)
raises; on the scale path a non-positive value raises, and comparing an
unprovided `None` against 0 raises a TypeError. -/
def comb_validate_val (adjustment_type : String) (val : Option ℚ) : Except String Unit :=
  if adjustment_type = "shape" ∧ val ≠ some 1 ∧ val ≠ some 2 ∧ val ≠ some (-1) then
    Except.error "Invalid adjustment value curve type"
  else if adjustment_type = "scale" then
    match val with
    | none => Except.error "TypeError: comparison of NoneType and int"
    | some v => if v ≤ 0 then Except.error "Invalid adjustment value scale factor" else Except.ok ()
  else Except.ok ()

/-- Configuration validation of `combined_fis_custom` (lines 53-80): the
adjustment type must be `shift`, `scale` or `shape`, then the three
per-variable values pass through the validation loop in order. -/
def comb_validate (adjustment_type : Option String) (spl sp2 slo : Option ℚ) :
    Except String Unit :=
  match adjustment_type with
  | none => Except.ok ()
  | some t =>
      if ¬ (t = "shift" ∨ t = "scale" ∨ t = "shape") then
        Except.error "Invalid adjustment type"
      else
        match comb_validate_val t spl with
        | Except.error e => Except.error e
        | Except.ok _ =>
        match comb_validate_val t sp2 with
        | Except.error e => Except.error e
        | Except.ok _ => comb_validate_val t slo

/-- Parameter derivation of `combined_fis_custom` (lines 59-74): each of the
three variables gets a (shift, scale, shape) triple defaulting to (0, 1, 0);
the value supplied for a variable overwrites the slot selected by the
adjustment type, an unprovided value leaves the default. -/
def derive_adjustment_params (t : String) (spl sp2 slo : Option ℚ) :
    (ℚ × ℚ × ℚ) × (ℚ × ℚ × ℚ) × (ℚ × ℚ × ℚ) :=
  let one : Option ℚ → ℚ × ℚ × ℚ := fun v =>
    if t = "shift" then (v.getD 0, 1, 0)
    else if t = "scale" then (0, v.getD 1, 0)
    else if t = "shape" then (0, 1, v.getD 0)
    else (0, 1, 0)
  (one spl, one sp2, one slo)

/-- The `combined_fis_custom` wrapper at the level the claims need: with an
adjustment type the configuration is validated eagerly (lines 53-80, before
any reach is loaded) and the custom calculation runs on the derived
parameters; without one the standard `calculate_combined_fis` (whose
membership functions are all well-formed) processes the reaches. -/
def combined_fis_custom_run (adjustment_type : Option String) (spl sp2 slo : Option ℚ)
    (maxDA : Option ℚ) (reaches : List CombReach) (fis : CombReach → ℚ) :
    Except String (List (ℚ × ℚ)) :=
  match adjustment_type with
  | none => Except.ok (reaches.map (processReach maxDA fis))
  | some t =>
      match comb_validate (some t) spl sp2 slo with
      | Except.error e => Except.error e
      | Except.ok _ =>
          let p := derive_adjustment_params t spl sp2 slo
          calculate_combined_fis_custom_run p.1.1 p.1.2.1 p.1.2.2
            p.2.1.1 p.2.1.2.1 p.2.1.2.2 p.2.2.1 p.2.2.2.1 p.2.2.2.2 maxDA reaches fis

/-! ## Monte Carlo driver (`brat_montecarlo.py`)

Random draws are modelled by an explicit stream `rng : ℕ → ℚ` of the standard
variates the numpy generator would produce; the table transformations
`loc + scale * u` are applied exactly as in the source. -/

/-- Input distribution table fitted to the Siletz data (lines 54-60), as
(variable, family, param1, param2). -/
def input_dists_sampled : List (String × String × ℚ × ℚ) :=
  [("iVeg_30EX", "norm", mkRat 2234 1000, mkRat 5708 10000),
   ("iVeg100EX", "norm", mkRat 2110 1000, mkRat 3793 10000),
   ("iHyd_SPlow", "expon", 0, mkRat 3311 1000),
   ("iHyd_SP2", "expon", 244, mkRat 3029 10),
   ("iGeo_Slope", "expon", 0, mkRat 1878 10000)]

/-- Bounded uniform input distribution table (lines 62-68). -/
def input_dists_uniform : List (String × String × ℚ × ℚ) :=
  [("iVeg_30EX", "uniform", 0, 4),
   ("iVeg100EX", "uniform", 0, 4),
   ("iHyd_SPlow", "uniform", 0, 190),
   ("iHyd_SP2", "uniform", 0, 2400),
   ("iGeo_Slope", "uniform", 0, 1)]

/-- One draw from a named distribution family (`generate_inputs` lines
120-128): `u` is the standard variate supplied by the generator; an unknown
family raises. -/
def sampleDist (dist : String) (param1 param2 u : ℚ) : Except String ℚ :=
  if dist = "norm" then Except.ok (param1 + param2 * u)
  else if dist = "uniform" then Except.ok (param1 + (param2 - param1) * u)
  else if dist = "expon" then Except.ok (param2 * u + param1)
  else Except.error "Unknown distribution type"

/-- Sample one synthetic reach: one draw per tabulated variable, consuming
consecutive positions of the stream. -/
def sample_vars : List (String × String × ℚ × ℚ) → (ℕ → ℚ) → ℕ → Except String (List (String × ℚ))
  | [], _, _ => Except.ok []
  | (v, d, p1, p2) :: rest, rng, k =>
      match sampleDist d p1 p2 (rng k) with
      | Except.error e => Except.error e
      | Except.ok x =>
          match sample_vars rest rng (k + 1) with
          | Except.error e => Except.error e
          | Except.ok xs => Except.ok ((v, x) :: xs)

/-- Recursion of `generate_inputs` over the requested sample count; reach `i`
consumes the draws following those of reach `i - 1`. -/
def generate_inputs_go (dists : List (String × String × ℚ × ℚ)) (rng : ℕ → ℚ) :
    ℕ → ℕ → Except String (List (List (String × ℚ)))
  | 0, _ => Except.ok []
  | n + 1, k =>
      match sample_vars dists rng k with
      | Except.error e => Except.error e
      | Except.ok reach =>
          match generate_inputs_go dists rng n (k + dists.length) with
          | Except.error e => Except.error e
          | Except.ok rest => Except.ok (reach :: rest)

/-- `generate_inputs` (lines 102-130): draw `n` synthetic reaches from the
selected distribution table. -/
def generate_inputs (n : ℕ) (uniform : Bool) (rng : ℕ → ℚ) :
    Except String (List (List (String × ℚ))) :=
  generate_inputs_go (if uniform then input_dists_uniform else input_dists_sampled) rng n 0

/-- One adjustment vector (`generate_adjustments`, lines 133-152): every
parameter of the `adjustment_dist` table (lines 70-79) is normal with the
tabulated mean and spread; the parameters whose name contains `Scale` take
the absolute value of the draw.  Draws consume `rng 0` to `rng 7` in table
order. -/
structure AdjustmentVector where
  SPlow_Shift : ℚ
  SP2_Shift : ℚ
  Slope_Shift : ℚ
  Veg30_Scale : ℚ
  Veg100_Scale : ℚ
  SPlow_Scale : ℚ
  SP2_Scale : ℚ
  Slope_Scale : ℚ

/-- Draw one adjustment vector from the tabulated distributions. -/
def generate_adjustments (rng : ℕ → ℚ) : AdjustmentVector :=
  { SPlow_Shift := 0 + mkRat 185 10 * rng 0
    SP2_Shift := 0 + 200 * rng 1
    Slope_Shift := 0 + mkRat 2 100 * rng 2
    Veg30_Scale := |1 + mkRat 75 100 * rng 3|
    Veg100_Scale := |1 + mkRat 75 100 * rng 4|
    SPlow_Scale := |1 + mkRat 75 100 * rng 5|
    SP2_Scale := |1 + mkRat 75 100 * rng 6|
    Slope_Scale := |1 + mkRat 75 100 * rng 7| }

/-- Python iteration over an int value: line 201 of `brat_montecarlo.py` reads
`for reachi in len(input_reaches)`, and iterating over an int raises a
TypeError regardless of its value. -/
def pyIterInt (_n : ℤ) : Except String (List ℤ) :=
  Except.error "TypeError: int object is not iterable"

/-- Simulation loop of `brat_montecarlo` (lines 186-235): each iteration draws
one adjustment vector (line 191) and then builds the per-reach feature
dictionaries, whose first comprehension iterates over `len(input_reaches)`
(line 201). -/
def simulation_loop (input_reaches : List (List (String × ℚ))) (rng : ℕ → ℚ) :
    ℕ → Except String Unit
  | 0 => Except.ok ()
  | n + 1 =>
      let _adj := generate_adjustments rng
      match pyIterInt (input_reaches.length : ℤ) with
      | Except.error e => Except.error e
      | Except.ok _ => simulation_loop input_reaches rng n

/-- `brat_montecarlo` (lines 156-235) at the level the claims need: the
synthetic inputs are generated once, before the simulation loop (line 181),
then the loop runs `n_simulations` times.  Database bookkeeping is performed
by an external collaborator and omitted. -/
def brat_montecarlo_run (n_simulations n_synthetic : ℕ) (uniform : Bool) (rng : ℕ → ℚ) :
    Except String Unit :=
  match generate_inputs n_synthetic uniform rng with
  | Except.error e => Except.error e
  | Except.ok input_reaches => simulation_loop input_reaches rng n_simulations

/-! ## Supporting lemmas about the per-reach capacity -/

theorem clampVeg_nonneg (v : ℚ) : 0 ≤ clampVeg v := by
  unfold clampVeg
  split_ifs <;> linarith

theorem clampVeg_eq_self (v : ℚ) (h0 : 0 ≤ v) (h45 : v ≤ 45) : clampVeg v = v := by
  unfold clampVeg
  split_ifs <;> linarith

theorem fisCapacity_le_veg (veg fisOut : ℚ) (hveg : 0 ≤ veg) :
    fisCapacity veg fisOut ≤ veg := by
  unfold fisCapacity
  dsimp only
  split_ifs <;> linarith

theorem reachCapacity_le_clampVeg (maxDA : Option ℚ) (drain veg : ℚ) (rc : ℤ) (fisOut : ℚ) :
    reachCapacity maxDA drain (clampVeg veg) rc fisOut ≤ clampVeg veg := by
  have hn := clampVeg_nonneg veg
  have hf := fisCapacity_le_veg (clampVeg veg) fisOut hn
  cases maxDA with
  | none => exact hf
  | some m =>
      simp only [reachCapacity]
      split_ifs <;> first | exact hf | exact hn

/-! ## Claim theorems -/

/-- C1: for every trapezoid breakpoint list (a, b, c, d) and scale factor
f > 0, `calculate_trap_scale` (and the identical inline scaling of the
vegetation stage) leaves the flat top (b, c) unchanged and moves the outer
points to b - (b-a)f and c + (d-c)f; a triangle (a, b, c) keeps its apex b and
scales both legs around it; in particular f = 2 doubles the left and right
slope lengths. -/
theorem calculate_trap_scale_spec (a b c d f : ℚ) (_hf : 0 < f) :
    calculate_trap_scale [a, b, c, d] f = [b - (b - a) * f, b, c, c + (d - c) * f]
    ∧ calculate_tri_scale [a, b, c] f = [b - (b - a) * f, b, b + (c - b) * f]
    ∧ (veg_scale_mfs f).getD 0 ("", []) =
        ("unsuitable", calculate_trap_scale [0, 0, mkRat 1 10, 1] f)
    ∧ b - (calculate_trap_scale [a, b, c, d] 2).getD 0 0 = 2 * (b - a)
    ∧ (calculate_trap_scale [a, b, c, d] 2).getD 3 0 - c = 2 * (d - c) := by
  refine ⟨rfl, rfl, rfl, ?_, ?_⟩ <;>
    simp only [calculate_trap_scale, List.getD_cons_zero, List.getD_cons_succ] <;> ring

/-- Witness for C1 at the concrete trapezoid (1, 2, 3, 5) and factor 2. -/
theorem calculate_trap_scale_spec_witness :
    calculate_trap_scale [(1 : ℚ), 2, 3, 5] 2 = [2 - (2 - 1) * 2, 2, 3, 3 + (5 - 3) * 2] :=
  (calculate_trap_scale_spec 1 2 3 5 2 (by decide)).1

/-- C2 counterexample: a reach whose `oVC` input is 0.017 and whose FIS output
is large stores capacity 0.02 — the 2-decimal storage rounding lifts the
stored `oCC` strictly above the `oVC` input, so the stored value does exceed
the vegetation capacity. -/
theorem stored_capacity_exceeds_ovc_cex :
    (processReach none (fun _ => 30) ⟨mkRat 17 1000, 500, 50, mkRat 1 100, 0, 0, 1000⟩).1 =
      mkRat 2 100
    ∧ mkRat 17 1000 < mkRat 2 100 := by
  decide

/-- C2 (amended): the capacity value computed for a reach never exceeds the
clamped vegetation capacity (the min applied after defuzzification), and
whenever the `oVC` input is itself a 2-decimal value of [0, 45] — as every
value stored by the vegetation stage is — the 2-decimal stored `oCC` also
never exceeds it.  For other inputs the storage rounding can exceed `oVC` by
under half a hundredth. -/
theorem capacity_le_vegetation_capacity (maxDA : Option ℚ) (drain veg fisOut : ℚ) (rc : ℤ) :
    reachCapacity maxDA drain (clampVeg veg) rc fisOut ≤ clampVeg veg
    ∧ (roundTo 2 veg = veg → 0 ≤ veg → veg ≤ 45 →
        roundTo 2 (reachCapacity maxDA drain (clampVeg veg) rc fisOut) ≤ veg) := by
  refine ⟨reachCapacity_le_clampVeg maxDA drain veg rc fisOut, ?_⟩
  intro hfix h0 h45
  have hceq := clampVeg_eq_self veg h0 h45
  have hle := reachCapacity_le_clampVeg maxDA drain veg rc fisOut
  rw [hceq] at hle ⊢
  exact roundTo_le_of_le_fix 2 _ veg hfix hle

/-- Witness for C2 at `oVC = 5`, FIS output 3. -/
theorem capacity_le_vegetation_capacity_witness :
    roundTo 2 (5 : ℚ) = 5 ∧ (0 : ℚ) ≤ 5 ∧ (5 : ℚ) ≤ 45 ∧
      roundTo 2 (reachCapacity none 0 (clampVeg 5) 0 3) ≤ 5 :=
  ⟨by decide, by decide, by decide,
    (capacity_le_vegetation_capacity none 0 5 3 0).2 (by decide) (by decide) (by decide)⟩

/-- C3: with a truthy configured maximum drainage area, a reach at or above it
whose code is not 33600 gets capacity exactly 0 (also after storage rounding)
regardless of every other input; a reach with code 33600 is evaluated exactly
as if no maximum were configured. -/
theorem drainage_area_gate (m drain veg fisOut : ℚ) (rc : ℤ)
    (hm : m ≠ 0) (hd : m ≤ drain) (hrc : rc ≠ 33600) :
    reachCapacity (some m) drain veg rc fisOut = 0
    ∧ roundTo 2 (reachCapacity (some m) drain veg rc fisOut) = 0
    ∧ ∀ fisOut2 : ℚ,
        reachCapacity (some m) drain veg 33600 fisOut2 =
          reachCapacity none drain veg 33600 fisOut2 := by
  have hz : reachCapacity (some m) drain veg rc fisOut = 0 := by
    simp only [reachCapacity]
    rw [if_neg hm, if_neg (not_lt.mpr hd), if_neg hrc]
  refine ⟨hz, ?_, ?_⟩
  · rw [hz]; decide
  · intro fisOut2
    simp only [reachCapacity]
    split_ifs <;> rfl

/-- Witness for C3: maximum 10, drainage 20, reach code 0. -/
theorem drainage_area_gate_witness :
    reachCapacity (some 10) 20 5 0 3 = 0 ∧ (10 : ℚ) ≠ 0 ∧ (10 : ℚ) ≤ 20 ∧ (0 : ℤ) ≠ 33600 :=
  ⟨(drainage_area_gate 10 20 5 3 0 (by decide) (by decide) (by decide)).1,
    by decide, by decide, by decide⟩

/-- C4: the stored dam count is the raw count `capacity * len / 1000` rounded
to 2 decimals, except that a raw count strictly between 0 and 1 is recorded as
exactly 1; a raw count of 0 stays 0, and raw counts of at least 1 are simply
rounded, with no special-casing above 1. -/
theorem dam_count_rounding (capacity len : ℚ) :
    (0 < capacity * len * mkRat 1 1000 → capacity * len * mkRat 1 1000 < 1 →
      damCount capacity len = 1)
    ∧ (capacity * len * mkRat 1 1000 = 0 → damCount capacity len = 0)
    ∧ (1 ≤ capacity * len * mkRat 1 1000 →
      damCount capacity len = roundTo 2 (capacity * len * mkRat 1 1000)) := by
  unfold damCount
  rw [damCount_raw_eq]
  dsimp only
  refine ⟨?_, ?_, ?_⟩
  · intro h1 h2
    rw [if_pos ⟨h1, h2⟩]
    decide
  · intro h0
    rw [h0, if_neg (by norm_num)]
    decide
  · intro h1
    rw [if_neg (fun hc => absurd h1 (not_le.mpr hc.2))]

/-- Witness for C4: raw counts 0.3, 0 and 1.7 over a 1000-unit reach. -/
theorem dam_count_rounding_witness :
    damCount (mkRat 3 10) 1000 = 1 ∧ damCount 0 1000 = 0 ∧ damCount (mkRat 17 10) 1000 = mkRat 17 10 :=
  ⟨(dam_count_rounding (mkRat 3 10) 1000).1 (by decide) (by decide),
    (dam_count_rounding 0 1000).2.1 (by decide),
    ((dam_count_rounding (mkRat 17 10) 1000).2.2 (by decide)).trans (by decide)⟩

/-- C5 counterexample: an output of 44 lies at or above the pervasive centroid
(about 31.479) evaluated in isolation, yet the vegetation stage stores 40 -
not the output domain maximum 45. -/
theorem pervasive_reclass_not_domain_max_cex :
    plCentroid pervasivePts ≤ 44 ∧ vegStored 44 = 40 ∧ (40 : ℚ) ≠ 45 := by
  decide

/-- C5 (amended): a vegetation-stage output whose 6-decimal rounding equals
the precomputed `none` centroid is stored as exactly 0; an output whose
integer (half-even) rounding is at least `defuzz_pervasive = 31` — the
pervasive centroid rounded to the nearest integer, not the exact centroid —
is stored as 40.0, which is not the output domain maximum 45. -/
theorem veg_output_reclassification (r : ℚ) :
    (roundTo 6 r = defuzz_centroid → vegStored r = 0)
    ∧ (roundTo 6 r ≠ defuzz_centroid → defuzz_pervasive ≤ roundHalfEven r →
        vegStored r = 40)
    ∧ defuzz_pervasive = 31 ∧ (40 : ℚ) ≠ 45 := by
  refine ⟨?_, ?_, by decide, by decide⟩
  · intro h
    unfold vegStored vegResult
    rw [if_pos h]
    rw [if_neg (by decide : ¬ defuzz_pervasive ≤ roundHalfEven (0 : ℚ))]
    decide
  · intro h1 h2
    unfold vegStored vegResult
    rw [if_neg h1, if_pos h2]
    decide

/-- Witness for C5 at the `none` centroid itself and at 44. -/
theorem veg_output_reclassification_witness :
    roundTo 6 (mkRat 33333 1000000) = defuzz_centroid
    ∧ vegStored (mkRat 33333 1000000) = 0
    ∧ roundTo 6 44 ≠ defuzz_centroid
    ∧ defuzz_pervasive ≤ roundHalfEven (44 : ℚ)
    ∧ vegStored 44 = 40 :=
  ⟨by decide, (veg_output_reclassification (mkRat 33333 1000000)).1 (by decide),
    by decide, by decide,
    (veg_output_reclassification 44).2.1 (by decide) (by decide)⟩

/-- C6 counterexample: the combined configuration step accepts the shape value
-1.0 for all three variables, although -1.0 is not one of the two defined
selectors (1.0 best fit, 2.0 loose fit); no error is raised at configuration
time. -/
theorem shape_validation_accepts_minus_one_cex :
    comb_validate (some "shape") (some (-1)) (some (-1)) (some (-1)) = Except.ok ()
    ∧ (-1 : ℚ) ≠ 1 ∧ (-1 : ℚ) ≠ 2 :=
  ⟨rfl, by decide, by decide⟩

/-- Proposition that an adjustment value passes the shape-path check of the
combined validation loop (line 77): it is 1.0, 2.0 or -1.0. -/
def shape_val_ok (v : Option ℚ) : Prop :=
  v = some 1 ∨ v = some 2 ∨ v = some (-1)

instance (v : Option ℚ) : Decidable (shape_val_ok v) := by
  unfold shape_val_ok
  infer_instance

theorem not_shape_val_ok_elim {v : Option ℚ} (h : ¬ shape_val_ok v) :
    v ≠ some 1 ∧ v ≠ some 2 ∧ v ≠ some (-1) :=
  ⟨fun h1 => h (Or.inl h1), fun h2 => h (Or.inr (Or.inl h2)),
    fun h3 => h (Or.inr (Or.inr h3))⟩

theorem comb_validate_val_shape_ok (v : Option ℚ) (h : shape_val_ok v) :
    comb_validate_val "shape" v = Except.ok () := by
  unfold comb_validate_val
  rw [if_neg (fun hc => by
    rcases h with h | h | h
    · exact hc.2.1 h
    · exact hc.2.2.1 h
    · exact hc.2.2.2 h)]
  rw [if_neg (by decide : ¬ ("shape" : String) = "scale")]

theorem comb_validate_val_shape_invalid (v : Option ℚ)
    (h1 : v ≠ some 1) (h2 : v ≠ some 2) (h3 : v ≠ some (-1)) :
    comb_validate_val "shape" v = Except.error "Invalid adjustment value curve type" := by
  unfold comb_validate_val
  rw [if_pos ⟨rfl, h1, h2, h3⟩]

/-- C6 (amended): the vegetation stage rejects every shape value outside
{1.0, 2.0} eagerly at configuration time and writes no output; the combined
stage rejects, eagerly and with no output written, every configuration in
which any of the three supplied shape values lies outside {1.0, 2.0, -1.0}
(an unprovided value also counts as invalid on this path), but additionally
accepts -1.0 as a third selector (see the counterexample). -/
theorem shape_validation_rejects_unknown (v : ℚ) (spl sp2 slo : Option ℚ)
    (reaches : List (ℚ × ℚ)) (creaches : List CombReach) (vfis : ℚ → ℚ → ℚ)
    (cfis : CombReach → ℚ) (maxDA : Option ℚ)
    (hv1 : v ≠ 1) (hv2 : v ≠ 2)
    (hinv : ¬ shape_val_ok spl ∨ ¬ shape_val_ok sp2 ∨ ¬ shape_val_ok slo) :
    veg_validate (some "shape") v = Except.error "Invalid adjustment value"
    ∧ vegetation_fis_custom_run (some "shape") v reaches vfis =
        Except.error "Invalid adjustment value"
    ∧ comb_validate (some "shape") spl sp2 slo =
        Except.error "Invalid adjustment value curve type"
    ∧ combined_fis_custom_run (some "shape") spl sp2 slo maxDA creaches cfis =
        Except.error "Invalid adjustment value curve type" := by
  have hveg : veg_validate (some "shape") v = Except.error "Invalid adjustment value" := by
    show (if ¬ (("shape" : String) = "scale" ∨ ("shape" : String) = "shape") then
        Except.error "Invalid adjustment type"
      else if ("shape" : String) = "scale" ∧ v ≤ 0 then
        Except.error "Invalid adjustment value scale factor"
      else if ("shape" : String) = "shape" ∧ ¬ (v = 1 ∨ v = 2) then
        Except.error "Invalid adjustment value"
      else Except.ok ()) = Except.error "Invalid adjustment value"
    rw [if_neg (by decide : ¬ ¬ (("shape" : String) = "scale" ∨ ("shape" : String) = "shape"))]
    rw [if_neg (fun hc => absurd hc.1 (by decide))]
    rw [if_pos ⟨rfl, fun hor => hor.elim hv1 hv2⟩]
  have hcomb : comb_validate (some "shape") spl sp2 slo =
      Except.error "Invalid adjustment value curve type" := by
    show (if ¬ (("shape" : String) = "shift" ∨ ("shape" : String) = "scale" ∨ ("shape" : String) = "shape") then
        Except.error "Invalid adjustment type"
      else
        match comb_validate_val "shape" spl with
        | Except.error e => Except.error e
        | Except.ok _ =>
          match comb_validate_val "shape" sp2 with
          | Except.error e => Except.error e
          | Except.ok _ => comb_validate_val "shape" slo) =
      Except.error "Invalid adjustment value curve type"
    rw [if_neg (by decide :
      ¬ ¬ (("shape" : String) = "shift" ∨ ("shape" : String) = "scale" ∨ ("shape" : String) = "shape"))]
    by_cases hspl : shape_val_ok spl
    · rw [comb_validate_val_shape_ok spl hspl]
      by_cases hsp2 : shape_val_ok sp2
      · rw [comb_validate_val_shape_ok sp2 hsp2]
        have hslo : ¬ shape_val_ok slo := by
          rcases hinv with h | h | h
          · exact absurd hspl h
          · exact absurd hsp2 h
          · exact h
        obtain ⟨h1, h2, h3⟩ := not_shape_val_ok_elim hslo
        rw [comb_validate_val_shape_invalid slo h1 h2 h3]
      · obtain ⟨h1, h2, h3⟩ := not_shape_val_ok_elim hsp2
        rw [comb_validate_val_shape_invalid sp2 h1 h2 h3]
    · obtain ⟨h1, h2, h3⟩ := not_shape_val_ok_elim hspl
      rw [comb_validate_val_shape_invalid spl h1 h2 h3]
  refine ⟨hveg, ?_, hcomb, ?_⟩
  · show (match veg_validate (some "shape") v with
        | Except.error e => Except.error e
        | Except.ok _ =>
            Except.ok (reaches.map fun r => vegStored (vfis (clampSuit r.1) (clampSuit r.2)))) =
      Except.error "Invalid adjustment value"
    rw [hveg]
  · show (match comb_validate (some "shape") spl sp2 slo with
        | Except.error e => Except.error e
        | Except.ok _ =>
            let p := derive_adjustment_params "shape" spl sp2 slo
            calculate_combined_fis_custom_run p.1.1 p.1.2.1 p.1.2.2 p.2.1.1 p.2.1.2.1 p.2.1.2.2
              p.2.2.1 p.2.2.2.1 p.2.2.2.2 maxDA creaches cfis) =
      Except.error "Invalid adjustment value curve type"
    rw [hcomb]

/-- Witness for C6 at shape value 3 (vegetation) and at a combined
configuration whose first value 1.0 is accepted but whose second value 3.0 is
invalid. -/
theorem shape_validation_rejects_unknown_witness :
    veg_validate (some "shape") 3 = Except.error "Invalid adjustment value"
    ∧ comb_validate (some "shape") (some 1) (some 3) (some 2) =
        Except.error "Invalid adjustment value curve type" :=
  ⟨(shape_validation_rejects_unknown 3 (some 1) (some 3) (some 2) [] [] (fun _ _ => 0)
      (fun _ => 0) none (by decide) (by decide) (Or.inr (Or.inl (by decide)))).1,
    (shape_validation_rejects_unknown 3 (some 1) (some 3) (some 2) [] [] (fun _ _ => 0)
      (fun _ => 0) none (by decide) (by decide) (Or.inr (Or.inl (by decide)))).2.2.1⟩

/-- C7 counterexample: a slope of -0.5 lies outside the declared domain
[0, 1] but is neither replaced by the domain minimum nor by the maximum — it
passes through unchanged; likewise a negative stream power is replaced by
0.0001, not by the domain minimum 0. -/
theorem slope_not_clamped_below_cex :
    clampSlope (mkRat (-1) 2) = mkRat (-1) 2
    ∧ clampSlope (mkRat (-1) 2) ≠ 0 ∧ clampSlope (mkRat (-1) 2) ≠ 1
    ∧ clampHyd (-5) = mkRat 1 10000 ∧ clampHyd (-5) ≠ 0 := by
  decide

/-- C7 (amended): evaluation never rejects an out-of-domain input.  The
vegetation suitability and capacity inputs are clamped exactly to their
domain minimum/maximum; the stream-power inputs are clamped to
[0.0001, 10000] (a negative value becomes 0.0001, not the domain minimum 0);
the slope input is clamped only from above, to 1, and negative slopes pass
through unchanged. -/
theorem input_clamping_policy (v : ℚ) :
    clampSuit v = specClamp 0 4 v
    ∧ clampVeg v = specClamp 0 45 v
    ∧ (0 ≤ v → clampHyd v = specClamp 0 10000 v)
    ∧ (v < 0 → clampHyd v = mkRat 1 10000)
    ∧ clampSlope v = min 1 v := by
  refine ⟨?_, ?_, ?_, ?_, ?_⟩
  · simp only [clampSuit, specClamp, max_def, min_def]
    split_ifs <;> linarith
  · simp only [clampVeg, specClamp, max_def, min_def]
    split_ifs <;> linarith
  · intro h0
    simp only [clampHyd, specClamp, max_def, min_def]
    split_ifs <;> linarith
  · intro hneg
    simp only [clampHyd]
    rw [if_pos hneg]
  · simp only [clampSlope, min_def]
    split_ifs <;> linarith

/-- Witness for C7 at -3 (suitability clamp) and 3 (stream-power clamp). -/
theorem input_clamping_policy_witness :
    clampSuit (-3) = specClamp 0 4 (-3) ∧ (0 : ℚ) ≤ 3 ∧ clampHyd 3 = specClamp 0 10000 3 :=
  ⟨(input_clamping_policy (-3)).1, by decide,
    (input_clamping_policy 3).2.2.1 (by decide)⟩

/-- C8: at the neutral parameters (shift 0.0, scale 1.0, default shape) every
breakpoint list computed by the builder equals the corresponding standard
membership function of `calculate_combined_fis` (lines 608-626) and
`calculate_vegegtation_fis` (lines 345-349) exactly — the identity the spec
requires — but the combined default-shape construction nevertheless fails the
skfuzzy trapmf arity assertion, because lines 225-227, 273-276 and 315-318
wrap each breakpoint list in a singleton list; so the adjusted combined run
errors where the standard stage would process the reaches. -/
theorem neutral_adjustment_identity_and_crash :
    veg_scale_mfs 1 = veg_standard_mfs
    ∧ splow_can_pts 0 1 = [0, 0, 150, 175]
    ∧ splow_probably_pts 0 1 = [150, 175, 180, 190]
    ∧ splow_cannot_pts 0 1 = [180, 190, 10000, 10000]
    ∧ sp2_persists_pts 0 1 = [0, 0, 1000, 1200]
    ∧ sp2_breach_pts 0 1 = [1000, 1200, 1600]
    ∧ sp2_oblowout_pts 0 1 = [1200, 1600, 2400]
    ∧ sp2_blowout_pts 0 1 = [1600, 2400, 10000, 10000]
    ∧ slope_flat_pts 0 1 = [0, 0, mkRat 2 10000, mkRat 5 1000]
    ∧ slope_can_pts 0 1 = [mkRat 2 10000, mkRat 5 1000, mkRat 12 100, mkRat 15 100]
    ∧ slope_probably_pts 0 1 = [mkRat 12 100, mkRat 15 100, mkRat 17 100, mkRat 23 100]
    ∧ slope_cannot_pts 0 1 = [mkRat 17 100, mkRat 23 100, 1, 1]
    ∧ calculate_combined_fis_custom_run 0 1 0 0 1 0 0 1 0 none
        [⟨5, 500, 50, mkRat 1 100, 0, 0, 1000⟩] (fun _ => 3) =
        Except.error "abcd parameter must have exactly four elements." := by
  refine ⟨?_, ?_, ?_, ?_, ?_, ?_, ?_, ?_, ?_, ?_, ?_, ?_, ?_⟩ <;> first | decide | rfl

/-- C9: `generate_inputs` does produce exactly the requested number of
synthetic reaches — but they are drawn once per session, before the
simulation loop, not per simulation; and every session with at least one
simulation fails with a TypeError, because line 201 iterates directly over
`len(input_reaches)`.  No simulation completes and no per-reach result is
recorded (the function also accepts no random seed). -/
theorem brat_montecarlo_first_simulation_fails :
    (∀ (n : ℕ) (uniform : Bool) (rng : ℕ → ℚ),
      ∃ l, generate_inputs n uniform rng = Except.ok l ∧ l.length = n)
    ∧ ∀ (nsim nsynth : ℕ) (uniform : Bool) (rng : ℕ → ℚ),
        brat_montecarlo_run (nsim + 1) nsynth uniform rng =
          Except.error "TypeError: int object is not iterable" := by
  have hsv : ∀ (u : Bool) (rng : ℕ → ℚ) (k : ℕ),
      ∃ r : List (String × ℚ),
        sample_vars (if u then input_dists_uniform else input_dists_sampled) rng k =
          Except.ok r := by
    intro u rng k
    cases u
    · exact ⟨_, rfl⟩
    · exact ⟨_, rfl⟩
  have hlen : ∀ (u : Bool) (rng : ℕ → ℚ) (n k : ℕ),
      ∃ l, generate_inputs_go (if u then input_dists_uniform else input_dists_sampled) rng n k =
            Except.ok l ∧ l.length = n := by
    intro u rng n
    induction n with
    | zero => intro k; exact ⟨[], rfl, rfl⟩
    | succ n ih =>
        intro k
        obtain ⟨r, hr⟩ := hsv u rng k
        obtain ⟨l, hl, hll⟩ :=
          ih (k + (if u then input_dists_uniform else input_dists_sampled).length)
        refine ⟨r :: l, ?_, by simp [hll]⟩
        show (match sample_vars (if u then input_dists_uniform else input_dists_sampled) rng k with
          | Except.error e => Except.error e
          | Except.ok reach =>
              match generate_inputs_go (if u then input_dists_uniform else input_dists_sampled)
                  rng n (k + (if u then input_dists_uniform else input_dists_sampled).length) with
              | Except.error e => Except.error e
              | Except.ok rest => Except.ok (reach :: rest)) = Except.ok (r :: l)
        rw [hr, hl]
  refine ⟨fun n u rng => hlen u rng n 0, ?_⟩
  intro nsim nsynth u rng
  obtain ⟨l, hl, _⟩ := hlen u rng nsynth 0
  show (match generate_inputs nsynth u rng with
      | Except.error e => Except.error e
      | Except.ok input_reaches => simulation_loop input_reaches rng (nsim + 1)) =
    Except.error "TypeError: int object is not iterable"
  rw [show generate_inputs nsynth u rng = Except.ok l from hl]
  rfl

/-- C10: whenever the SPLow shape parameter selects the default shift/scale
path (any value other than 1.0 and 2.0 — in particular the 0.0 the Monte
Carlo driver always passes for all three variables), the default membership
construction hands skfuzzy trapmf a singleton list wrapping the four-element
breakpoint list, the arity assertion fails, and the whole call errors before
any rule is evaluated, so no capacity or dam-count value is produced for any
reach. -/
theorem default_shape_path_crashes
    (spl_sh spl_sc spl_shape sp2_sh sp2_sc sp2_shape slo_sh slo_sc slo_shape : ℚ)
    (maxDA : Option ℚ) (reaches : List CombReach) (fis : CombReach → ℚ)
    (h1 : spl_shape ≠ 1) (h2 : spl_shape ≠ 2) :
    calculate_combined_fis_custom_run spl_sh spl_sc spl_shape sp2_sh sp2_sc sp2_shape
        slo_sh slo_sc slo_shape maxDA reaches fis =
      Except.error "abcd parameter must have exactly four elements." := by
  have hsplow : build_splow spl_sh spl_sc spl_shape =
      Except.error "abcd parameter must have exactly four elements." := by
    unfold build_splow
    rw [if_neg h1, if_neg h2]
    rfl
  unfold calculate_combined_fis_custom_run build_combined_mfs
  rw [hsplow]
  rfl

/-- Witness for C10 with shape 0.0 for SPLow and loose-fit shapes elsewhere. -/
theorem default_shape_path_crashes_witness :
    calculate_combined_fis_custom_run 0 1 0 0 1 2 0 1 2 none [] (fun _ => 0) =
      Except.error "abcd parameter must have exactly four elements." :=
  default_shape_path_crashes 0 1 0 0 1 2 0 1 2 none [] (fun _ => 0)
    (by decide) (by decide)
